import Mathlib

/-!
# Verification of the construction cost estimator (src/app.py)

Shallow embedding of the material/cost estimation pipeline of the
Streamlit app.  Python floats are modelled as exact rationals (ℚ);
Python dicts (which preserve insertion order) are modelled as
association lists over `String` keys; `dict.get(k, default)` becomes
`(dictLookup d k).getD default`.
-/

/-- Lookup in an association list, mirroring Python `d[k]` / `k in d`:
the first pair whose key equals `k`. -/
def dictLookup {α : Type} : List (String × α) → String → Option α
  | [], _ => none
  | p :: rest, k => if p.1 = k then some p.2 else dictLookup rest k

/-- Table MATERIAL_RATES (src/app.py lines 12–19): material ↦ (rate, unit). -/
def MATERIAL_RATES : List (String × ℚ × String) :=
  [ ("cement", (400, "per bag")),
    ("steel", (65000, "per MT")),
    ("bricks", (7000, "per 1000 nos")),
    ("sand", (1500, "per cum")),
    ("aggregate_20mm", (1200, "per cum")),
    ("aggregate_10mm", (1300, "per cum")) ]

/-- Table CONSTRUCTION_COEFFICIENTS (src/app.py lines 22–43):
construction type ↦ (material ↦ quantity per 100 sqft). -/
def CONSTRUCTION_COEFFICIENTS : List (String × List (String × ℚ)) :=
  [ ("RCC Slab (4 inch)",
      [("cement", 4.5), ("steel", 0.08), ("sand", 0.25), ("aggregate_20mm", 0.5)]),
    ("Brick Wall (9 inch)",
      [("cement", 3.0), ("bricks", 1350), ("sand", 0.35)]),
    ("Plaster (12mm)",
      [("cement", 1.5), ("sand", 0.15)]),
    ("Flooring (IPS)",
      [("cement", 2.0), ("sand", 0.18), ("aggregate_10mm", 0.15)]) ]

/-- Function calculate_materials (src/app.py lines 45–56): area, area/100,
then `coefficient * area_in_100sqft` for each material of the chosen
construction type (`.get(construction_type, {})` defaults to the empty
mapping for an unknown type). -/
def calculate_materials (length width : ℚ) (construction_type : String) :
    List (String × ℚ) × ℚ :=
  let area := length * width
  let area_in_100sqft := area / 100
  let coefficients := (dictLookup CONSTRUCTION_COEFFICIENTS construction_type).getD []
  (coefficients.map (fun p => (p.1, p.2 * area_in_100sqft)), area)

/-- Python `round(x, 2)` rounds half to even; on our exact rationals this
is half-to-even rounding of `x * 100` to an integer. -/
def roundHalfEven (x : ℚ) : ℤ :=
  if x - ⌊x⌋ < 1/2 then ⌊x⌋
  else if 1/2 < x - ⌊x⌋ then ⌊x⌋ + 1
  else if ⌊x⌋ % 2 = 0 then ⌊x⌋ else ⌊x⌋ + 1

/-- The round(x, 2) used at src/app.py lines 68 and 71. -/
def round2 (x : ℚ) : ℚ := (roundHalfEven (x * 100) : ℚ) / 100

/-- One entry of the `cost_breakdown` dict built at src/app.py
lines 67–72: quantity and cost are stored already rounded to two
decimals, rate and unit come from `MATERIAL_RATES`. -/
structure CostLine where
  quantity : ℚ
  rate : ℚ
  unit : String
  cost : ℚ
deriving Repr, DecidableEq

/-- Function calculate_cost (src/app.py lines 58–75): walk the materials map in
order; a material present in `MATERIAL_RATES` contributes a breakdown
entry (with 2-decimal-rounded quantity and cost) and its exact
`quantity * rate` to the running total; a material without a rate entry
is skipped.  The loop is rendered as structural recursion; the total is
the same exact rational sum the accumulator builds. -/
def calculate_cost : List (String × ℚ) → List (String × CostLine) × ℚ
  | [] => ([], 0)
  | (material, quantity) :: rest =>
    let r := calculate_cost rest
    match dictLookup MATERIAL_RATES material with
    | some ru =>
        ((material, ⟨round2 quantity, ru.1, ru.2, round2 (quantity * ru.1)⟩) :: r.1,
         quantity * ru.1 + r.2)
    | none => r

/-- The materials map after the wastage markup of src/app.py line 135:
`{k: v * (1 + wastage_factor/100) for k, v in materials.items()}`. -/
def adjusted_materials (length width : ℚ) (construction_type : String)
    (wastage_factor : ℚ) : List (String × ℚ) :=
  (calculate_materials length width construction_type).1.map
    (fun p => (p.1, p.2 * (1 + wastage_factor / 100)))

/-- The result assembled by the calculate-button handler
(src/app.py lines 130–142). -/
structure EstimateResult where
  area : ℚ
  breakdown : List (String × CostLine)
  material_cost : ℚ
  labor_cost : ℚ
  total_cost : ℚ
deriving Repr, DecidableEq

/-- The estimation pipeline of the handler (src/app.py lines 130–142):
`calculate_materials`, wastage markup, `calculate_cost`,
`labor_cost = material_cost * 0.3 if include_labor else 0`,
`total_cost = material_cost + labor_cost`. -/
def estimate (length width : ℚ) (construction_type : String)
    (wastage_factor : ℚ) (include_labor : Bool) : EstimateResult :=
  let mr := calculate_materials length width construction_type
  let materials := adjusted_materials length width construction_type wastage_factor
  let cb := calculate_cost materials
  let labor_cost := if include_labor then cb.2 * 0.3 else 0
  ⟨mr.2, cb.1, cb.2, labor_cost, cb.2 + labor_cost⟩

/-- Ratio total_cost/area, the cost per sqft shown at src/app.py line 193 and
exported as `cost_per_sqft` at line 217. -/
def cost_per_sqft (r : EstimateResult) : ℚ := r.total_cost / r.area

/-- The exact (pre-rounding) line cost `quantity * rate` of each priced
material, in breakdown order — the amounts `calculate_cost` accumulates
into `total_cost` at src/app.py line 73. -/
def exactLineCosts (materials : List (String × ℚ)) : List ℚ :=
  materials.filterMap (fun p => (dictLookup MATERIAL_RATES p.1).map (fun ru => p.2 * ru.1))

/-- Function get_ai_suggestions (src/app.py lines 77–97): the external call
`model.generate_content(prompt).text` is abstracted by its outcome —
either the returned text, or the detail string of the exception it
raised, which the `except` clause turns into the fallback message. -/
def get_ai_suggestions (outcome : Except String String) : String :=
  match outcome with
  | Except.ok text => text
  | Except.error detail => "AI suggestions unavailable: " ++ detail

/-- The handler computes the estimate first and only afterwards invokes
the advisory call (src/app.py lines 130–142 then 196–199); the advisory
outcome is not an input of the estimate. -/
def results_then_advisory (length width : ℚ) (construction_type : String)
    (wastage_factor : ℚ) (include_labor : Bool)
    (outcome : Except String String) : EstimateResult × String :=
  (estimate length width construction_type wastage_factor include_labor,
   get_ai_suggestions outcome)

/-! ## Concrete table lookups -/

theorem dictLookup_plaster :
    dictLookup CONSTRUCTION_COEFFICIENTS "Plaster (12mm)" =
      some [("cement", 1.5), ("sand", 0.15)] := rfl

theorem dictLookup_unknown :
    dictLookup CONSTRUCTION_COEFFICIENTS "Unknown" = none := rfl

theorem rate_cement : dictLookup MATERIAL_RATES "cement" = some (400, "per bag") := rfl

theorem rate_sand : dictLookup MATERIAL_RATES "sand" = some (1500, "per cum") := rfl

theorem rate_plywood : dictLookup MATERIAL_RATES "plywood" = none := rfl

/-! ## Structural lemmas -/

theorem dictLookup_map_mul (c : ℚ) (L : List (String × ℚ)) (k : String) :
    dictLookup (L.map (fun p => (p.1, p.2 * c))) k =
      (dictLookup L k).map (fun v => v * c) := by
  induction L with
  | nil => rfl
  | cons p rest ih =>
    simp only [List.map_cons, dictLookup]
    split_ifs with h
    · rfl
    · exact ih

theorem dictLookup_mem {α : Type} {d : List (String × α)} {k : String} {v : α}
    (h : dictLookup d k = some v) : (k, v) ∈ d := by
  induction d with
  | nil => simp [dictLookup] at h
  | cons p rest ih =>
    rcases p with ⟨pk, pv⟩
    by_cases hk : pk = k
    · rw [dictLookup] at h
      simp only [hk, if_pos] at h
      subst hk
      obtain rfl : pv = v := Option.some.inj h
      exact List.mem_cons_self _ _
    · rw [dictLookup] at h
      simp only [if_neg hk] at h
      exact List.mem_cons_of_mem _ (ih h)

/-- The running total of calculate_cost is exactly the sum of the
unrounded line costs, in order: internal aggregation carries full
precision. -/
theorem calculate_cost_total (ms : List (String × ℚ)) :
    (calculate_cost ms).2 = (exactLineCosts ms).sum := by
  induction ms with
  | nil => simp [calculate_cost, exactLineCosts]
  | cons head tail ih =>
    rcases head with ⟨m, q⟩
    cases hr : dictLookup MATERIAL_RATES m with
    | none => simp [calculate_cost, exactLineCosts, hr, ih]
    | some ru => simp [calculate_cost, exactLineCosts, hr, ih]

/-- The cost field stored in each breakdown entry is the two-decimal
rounding of the exact line cost, entry by entry. -/
theorem calculate_cost_costs (ms : List (String × ℚ)) :
    (calculate_cost ms).1.map (fun e => e.2.cost) = (exactLineCosts ms).map round2 := by
  induction ms with
  | nil => simp [calculate_cost, exactLineCosts]
  | cons head tail ih =>
    rcases head with ⟨m, q⟩
    cases hr : dictLookup MATERIAL_RATES m with
    | none => simp [calculate_cost, exactLineCosts, hr, ih]
    | some ru => simp [calculate_cost, exactLineCosts, hr, ih]

/-! ## Rounding bounds -/

theorem roundHalfEven_close (x : ℚ) : |(roundHalfEven x : ℚ) - x| ≤ 1/2 := by
  have h0 : ((⌊x⌋ : ℤ) : ℚ) ≤ x := Int.floor_le x
  have h1 : x < ((⌊x⌋ : ℤ) : ℚ) + 1 := Int.lt_floor_add_one x
  unfold roundHalfEven
  split_ifs with hc1 hc2 hc3
  · rw [abs_le]
    constructor <;> linarith
  · rw [abs_le]
    push_cast
    constructor <;> linarith
  · rw [abs_le]
    have hge := not_lt.mp hc1
    constructor <;> linarith
  · rw [abs_le]
    have hge := not_lt.mp hc1
    have hle := not_lt.mp hc2
    push_cast
    constructor <;> linarith

theorem round2_close (x : ℚ) : |round2 x - x| ≤ 1/200 := by
  have h := roundHalfEven_close (x * 100)
  unfold round2
  have e : (roundHalfEven (x * 100) : ℚ) / 100 - x =
      ((roundHalfEven (x * 100) : ℚ) - x * 100) / 100 := by ring
  rw [e, abs_div]
  have h100 : |(100 : ℚ)| = 100 := by norm_num
  rw [h100]
  linarith

/-- Evaluation helper for roundHalfEven when the fractional part is
below one half. -/
theorem roundHalfEven_eq_of_lt_half (x : ℚ) (n : ℤ) (h1 : (n : ℚ) ≤ x)
    (h2 : x < (n : ℚ) + 1/2) : roundHalfEven x = n := by
  have hfl : ⌊x⌋ = n := Int.floor_eq_iff.mpr ⟨h1, by linarith⟩
  unfold roundHalfEven
  rw [hfl, if_pos (show x - (n : ℚ) < 1/2 by linarith)]

/-! ## Field projections of the pipeline result -/

theorem estimate_area (l w wf : ℚ) (ct : String) (il : Bool) :
    (estimate l w ct wf il).area = l * w := rfl

theorem estimate_material_cost (l w wf : ℚ) (ct : String) (il : Bool) :
    (estimate l w ct wf il).material_cost =
      (exactLineCosts (adjusted_materials l w ct wf)).sum := by
  rw [show (estimate l w ct wf il).material_cost =
      (calculate_cost (adjusted_materials l w ct wf)).2 from rfl,
    calculate_cost_total]

theorem adjusted_plaster_5 :
    adjusted_materials 17 70 "Plaster (12mm)" 5 =
      [("cement", 1.5 * (17 * 70 / 100) * (1 + 5 / 100)),
       ("sand", 0.15 * (17 * 70 / 100) * (1 + 5 / 100))] := rfl

/-- C1: the Plaster (12mm) scenario with length 17, width 70, wastage 5 % and
labor included produces area 1190, adjusted quantities 18.7425 bags of cement
and 1.87425 cum of sand, exact line costs 7497.00 and 2811.375, material cost
10308.375, labor cost 3092.5125, total cost 13400.8875, and a cost per sqft
that rounds to 11.26. -/
theorem C1_plaster_scenario :
    (estimate 17 70 "Plaster (12mm)" 5 true).area = 1190 ∧
    dictLookup (adjusted_materials 17 70 "Plaster (12mm)" 5) "cement" = some 18.7425 ∧
    dictLookup (adjusted_materials 17 70 "Plaster (12mm)" 5) "sand" = some 1.87425 ∧
    exactLineCosts (adjusted_materials 17 70 "Plaster (12mm)" 5) = [7497, 2811.375] ∧
    (estimate 17 70 "Plaster (12mm)" 5 true).material_cost = 10308.375 ∧
    (estimate 17 70 "Plaster (12mm)" 5 true).labor_cost = 3092.5125 ∧
    (estimate 17 70 "Plaster (12mm)" 5 true).total_cost = 13400.8875 ∧
    round2 (cost_per_sqft (estimate 17 70 "Plaster (12mm)" 5 true)) = 11.26 := by
  have hexact : exactLineCosts (adjusted_materials 17 70 "Plaster (12mm)" 5) =
      [7497, 2811.375] := by
    rw [adjusted_plaster_5]
    simp [exactLineCosts, rate_cement, rate_sand]
    norm_num
  have hmc : (estimate 17 70 "Plaster (12mm)" 5 true).material_cost = 10308.375 := by
    rw [estimate_material_cost, hexact]
    norm_num
  have hlc : (estimate 17 70 "Plaster (12mm)" 5 true).labor_cost = 3092.5125 := by
    rw [show (estimate 17 70 "Plaster (12mm)" 5 true).labor_cost =
        (estimate 17 70 "Plaster (12mm)" 5 true).material_cost * 0.3 from rfl, hmc]
    norm_num
  have htc : (estimate 17 70 "Plaster (12mm)" 5 true).total_cost = 13400.8875 := by
    rw [show (estimate 17 70 "Plaster (12mm)" 5 true).total_cost =
        (estimate 17 70 "Plaster (12mm)" 5 true).material_cost +
        (estimate 17 70 "Plaster (12mm)" 5 true).labor_cost from rfl, hmc, hlc]
    norm_num
  refine ⟨by rw [estimate_area]; norm_num, ?_, ?_, hexact, hmc, hlc, htc, ?_⟩
  · rw [adjusted_plaster_5]
    simp [dictLookup]
    norm_num
  · rw [adjusted_plaster_5]
    simp [dictLookup]
    norm_num
  · have hcpa : cost_per_sqft (estimate 17 70 "Plaster (12mm)" 5 true) =
        13400.8875 / 1190 := by
      unfold cost_per_sqft
      rw [htc, estimate_area]
      norm_num
    rw [hcpa]
    unfold round2
    rw [roundHalfEven_eq_of_lt_half (13400.8875 / 1190 * 100) 1126 (by norm_num) (by norm_num)]
    norm_num

/-- C2 counterexample: for the unknown construction type the pipeline does
not fail — it returns a fully formed result with area 1190, an empty
breakdown and zero costs, contradicting the claim that an InvalidInput
error is produced rather than a result. -/
theorem C2_counterexample :
    estimate 17 70 "Unknown" 5 true =
      { area := 1190, breakdown := [], material_cost := 0,
        labor_cost := 0, total_cost := 0 } := by
  have h : estimate 17 70 "Unknown" 5 true =
      ⟨17 * 70, [], 0, 0 * 0.3, 0 + 0 * 0.3⟩ := rfl
  rw [h, EstimateResult.mk.injEq]
  norm_num

/-- C2 as amended: the computation pipeline performs no input validation
and returns a result for every input — length 0 gives area 0, width -5
gives a negative area, wastage 21 is applied as-is, and an unknown
construction type yields an empty breakdown with zero material cost. -/
theorem C2_no_pipeline_validation :
    (estimate 0 70 "Plaster (12mm)" 5 true).area = 0 ∧
    (estimate 17 (-5) "Plaster (12mm)" 5 true).area = -85 ∧
    (estimate 17 70 "Plaster (12mm)" 21 true).material_cost = 11879.175 ∧
    (estimate 17 70 "Unknown" 5 true).material_cost = 0 := by
  have hadj : adjusted_materials 17 70 "Plaster (12mm)" 21 =
      [("cement", 1.5 * (17 * 70 / 100) * (1 + 21 / 100)),
       ("sand", 0.15 * (17 * 70 / 100) * (1 + 21 / 100))] := rfl
  refine ⟨by rw [estimate_area]; norm_num, by rw [estimate_area]; norm_num, ?_, rfl⟩
  rw [estimate_material_cost, hadj]
  simp [exactLineCosts, rate_cement, rate_sand]
  norm_num

/-- C8: for a construction type that is not a key of the coefficient table,
calculate_materials returns the empty materials map paired with
area = length * width, and calculate_cost of the empty map is the empty
breakdown with total 0 — the whole path is a total function, no failure. -/
theorem C8_unknown_construction_type (l w : ℚ) (ct : String)
    (h : dictLookup CONSTRUCTION_COEFFICIENTS ct = none) :
    calculate_materials l w ct = ([], l * w) ∧
    calculate_cost [] = ([], 0) := by
  refine ⟨?_, rfl⟩
  simp [calculate_materials, h]

/-- Witness for C8 at the concrete unknown type of the claim. -/
theorem C8_witness :
    calculate_materials 17 70 "Unknown" = ([], 17 * 70) ∧
    calculate_cost [] = ([], 0) :=
  C8_unknown_construction_type 17 70 "Unknown" rfl

/-- C3: the running material cost equals the sum of the exact unrounded
line costs (full-precision internal aggregation); each cost stored in the
returned breakdown is the two-decimal display rounding of the exact line
cost; and that display rounding moves any value by at most 1/200. -/
theorem C3_cost_aggregation_full_precision :
    (∀ ms : List (String × ℚ), (calculate_cost ms).2 = (exactLineCosts ms).sum) ∧
    (∀ ms : List (String × ℚ),
      (calculate_cost ms).1.map (fun e => e.2.cost) = (exactLineCosts ms).map round2) ∧
    (∀ x : ℚ, |round2 x - x| ≤ 1/200) :=
  ⟨calculate_cost_total, calculate_cost_costs, round2_close⟩

/-- C4: labor cost is exactly 0 when labor is excluded and exactly
0.30 times the material cost when included, and in both cases the total
cost is the material cost plus the labor cost. -/
theorem C4_labor_and_total (l w wf : ℚ) (ct : String) :
    (estimate l w ct wf false).labor_cost = 0 ∧
    (estimate l w ct wf true).labor_cost =
      0.30 * (estimate l w ct wf true).material_cost ∧
    ∀ il : Bool, (estimate l w ct wf il).total_cost =
      (estimate l w ct wf il).material_cost + (estimate l w ct wf il).labor_cost := by
  refine ⟨rfl, ?_, fun il => by cases il <;> rfl⟩
  rw [show (estimate l w ct wf true).labor_cost =
      (estimate l w ct wf true).material_cost * 0.3 from rfl, mul_comm]
  norm_num

/-- C5: a material without a MATERIAL_RATES entry is silently dropped by
calculate_cost — appending it to the materials map changes neither the
breakdown nor the total, and no error arises; moreover every material of
every construction profile in the default tables has a rate entry. -/
theorem C5_unpriced_material_dropped :
    (∀ (ms : List (String × ℚ)) (m : String) (q : ℚ),
      dictLookup MATERIAL_RATES m = none →
      calculate_cost (ms ++ [(m, q)]) = calculate_cost ms) ∧
    (CONSTRUCTION_COEFFICIENTS.all
      (fun cp => cp.2.all (fun p => (dictLookup MATERIAL_RATES p.1).isSome)) = true) := by
  constructor
  · intro ms m q h
    induction ms with
    | nil => simp [calculate_cost, h]
    | cons head tail ih =>
      rcases head with ⟨hm, hq⟩
      show calculate_cost ((hm, hq) :: (tail ++ [(m, q)])) =
        calculate_cost ((hm, hq) :: tail)
      simp only [calculate_cost, ih]
  · rfl

/-- Witness for C5: the unpriced material plywood is dropped without
effect from a map that also contains cement. -/
theorem C5_witness :
    calculate_cost ([("cement", 10)] ++ [("plywood", 3)]) =
      calculate_cost [("cement", 10)] :=
  C5_unpriced_material_dropped.1 [("cement", 10)] "plywood" 3 rfl

/-! ## Coefficient positivity and lookup characterization -/

theorem coefficients_pos :
    ∀ cp ∈ CONSTRUCTION_COEFFICIENTS, ∀ p ∈ cp.2, (0 : ℚ) < p.2 := by
  intro cp hcp p hp
  fin_cases hcp <;> fin_cases hp <;> norm_num

/-- A successful lookup in the wastage-adjusted materials map comes from a
profile coefficient: the quantity is coefficient times area/100 times the
wastage markup. -/
theorem adjusted_materials_lookup (l w wf : ℚ) (ct m : String) (q : ℚ)
    (h : dictLookup (adjusted_materials l w ct wf) m = some q) :
    ∃ coeffs c, dictLookup CONSTRUCTION_COEFFICIENTS ct = some coeffs ∧
      dictLookup coeffs m = some c ∧
      q = c * (l * w / 100) * (1 + wf / 100) := by
  simp only [adjusted_materials, calculate_materials] at h
  rw [dictLookup_map_mul, dictLookup_map_mul] at h
  cases hct : dictLookup CONSTRUCTION_COEFFICIENTS ct with
  | none =>
    rw [hct] at h
    simp [dictLookup] at h
  | some coeffs =>
    rw [hct] at h
    simp only [Option.getD_some] at h
    cases hc : dictLookup coeffs m with
    | none => rw [hc] at h; simp at h
    | some c =>
      rw [hc] at h
      simp only [Option.map_some'] at h
      exact ⟨coeffs, c, rfl, hc, (Option.some.inj h).symm⟩

/-- C6: with a valid construction type, positive dimensions and wastage in
range, every adjusted line-item quantity is strictly increasing in the
wastage percent, and strictly increasing in the area for a fixed wastage
percent. -/
theorem C6_quantity_monotone :
    (∀ (l w wf₁ wf₂ : ℚ) (ct m : String) (q₁ q₂ : ℚ),
        0 < l → 0 < w → 0 ≤ wf₁ → wf₁ < wf₂ → wf₂ ≤ 20 →
        dictLookup (adjusted_materials l w ct wf₁) m = some q₁ →
        dictLookup (adjusted_materials l w ct wf₂) m = some q₂ →
        q₁ < q₂) ∧
    (∀ (l₁ w₁ l₂ w₂ wf : ℚ) (ct m : String) (q₁ q₂ : ℚ),
        0 ≤ wf → wf ≤ 20 → 0 < l₁ * w₁ → l₁ * w₁ < l₂ * w₂ →
        dictLookup (adjusted_materials l₁ w₁ ct wf) m = some q₁ →
        dictLookup (adjusted_materials l₂ w₂ ct wf) m = some q₂ →
        q₁ < q₂) := by
  constructor
  · intro l w wf₁ wf₂ ct m q₁ q₂ hl hw hwf₁ hlt hwf₂ h₁ h₂
    obtain ⟨coeffs, c, hct, hc, hq₁⟩ := adjusted_materials_lookup _ _ _ _ _ _ h₁
    obtain ⟨coeffs₂, c₂, hct₂, hc₂, hq₂⟩ := adjusted_materials_lookup _ _ _ _ _ _ h₂
    rw [hct] at hct₂
    injection hct₂ with e
    subst e
    rw [hc] at hc₂
    injection hc₂ with e₂
    subst e₂
    have hcpos : 0 < c :=
      coefficients_pos _ (dictLookup_mem hct) _ (dictLookup_mem hc)
    have hA : 0 < c * (l * w / 100) := by positivity
    subst hq₁ hq₂
    exact mul_lt_mul_of_pos_left (by linarith) hA
  · intro l₁ w₁ l₂ w₂ wf ct m q₁ q₂ hwf0 hwf20 hpos hlt h₁ h₂
    obtain ⟨coeffs, c, hct, hc, hq₁⟩ := adjusted_materials_lookup _ _ _ _ _ _ h₁
    obtain ⟨coeffs₂, c₂, hct₂, hc₂, hq₂⟩ := adjusted_materials_lookup _ _ _ _ _ _ h₂
    rw [hct] at hct₂
    injection hct₂ with e
    subst e
    rw [hc] at hc₂
    injection hc₂ with e₂
    subst e₂
    have hcpos : 0 < c :=
      coefficients_pos _ (dictLookup_mem hct) _ (dictLookup_mem hc)
    have hk : (0 : ℚ) < 1 + wf / 100 := by linarith
    have hmid : c * (l₁ * w₁ / 100) < c * (l₂ * w₂ / 100) :=
      mul_lt_mul_of_pos_left (by linarith) hcpos
    subst hq₁ hq₂
    exact mul_lt_mul_of_pos_right hmid hk

/-- Witness for C6: for the plaster profile, raising wastage from 5 % to
10 % strictly increases the cement quantity, and enlarging the slab from
17 by 70 to 20 by 70 does too. -/
theorem C6_witness :
    ((1.5 : ℚ) * (17 * 70 / 100) * (1 + 5 / 100) <
      1.5 * (17 * 70 / 100) * (1 + 10 / 100)) ∧
    ((1.5 : ℚ) * (17 * 70 / 100) * (1 + 5 / 100) <
      1.5 * (20 * 70 / 100) * (1 + 5 / 100)) :=
  ⟨C6_quantity_monotone.1 17 70 5 10 "Plaster (12mm)" "cement" _ _
      (by norm_num) (by norm_num) (by norm_num) (by norm_num) (by norm_num) rfl rfl,
    C6_quantity_monotone.2 17 70 20 70 5 "Plaster (12mm)" "cement" _ _
      (by norm_num) (by norm_num) (by norm_num) (by norm_num) rfl rfl⟩

/-- C7: on any provider failure the advisory wrapper returns the fallback
string that embeds the error detail (it never propagates the failure),
the fallback is nonempty, and the estimate computed before the advisory
call is unaffected by the advisory outcome. -/
theorem C7_advisory_fallback :
    (∀ detail : String,
      get_ai_suggestions (Except.error detail) =
        "AI suggestions unavailable: " ++ detail) ∧
    (∀ detail : String, 0 < (get_ai_suggestions (Except.error detail)).length) ∧
    (∀ (l w wf : ℚ) (ct : String) (il : Bool) (outcome : Except String String),
      (results_then_advisory l w ct wf il outcome).1 = estimate l w ct wf il) := by
  refine ⟨fun d => rfl, fun d => ?_, fun _ _ _ _ _ _ => rfl⟩
  show 0 < ("AI suggestions unavailable: " ++ d).length
  rw [String.length_append]
  have h : 0 < "AI suggestions unavailable: ".length := by decide
  omega

/-- C9: the pipeline is a pure function of the five request fields — two
calls on identical inputs return identical results. -/
theorem C9_deterministic (l₁ w₁ wf₁ l₂ w₂ wf₂ : ℚ) (ct₁ ct₂ : String)
    (il₁ il₂ : Bool) (hl : l₁ = l₂) (hw : w₁ = w₂) (hct : ct₁ = ct₂)
    (hwf : wf₁ = wf₂) (hil : il₁ = il₂) :
    estimate l₁ w₁ ct₁ wf₁ il₁ = estimate l₂ w₂ ct₂ wf₂ il₂ := by
  subst hl hw hct hwf hil
  rfl

/-- Witness for C9 at the default scenario inputs. -/
theorem C9_witness :
    estimate 17 70 "Plaster (12mm)" 5 true = estimate 17 70 "Plaster (12mm)" 5 true :=
  C9_deterministic 17 70 5 17 70 5 "Plaster (12mm)" "Plaster (12mm)" true true
    rfl rfl rfl rfl rfl

/-- C10: with positive length and width the area of the result is strictly
positive, hence nonzero, and the cost-per-sqft division is well defined:
it multiplies back to the total cost. -/
theorem C10_area_positive (l w wf : ℚ) (ct : String) (il : Bool)
    (hl : 0 < l) (hw : 0 < w) :
    0 < (estimate l w ct wf il).area ∧
    (estimate l w ct wf il).area ≠ 0 ∧
    cost_per_sqft (estimate l w ct wf il) * (estimate l w ct wf il).area =
      (estimate l w ct wf il).total_cost := by
  have ha : (estimate l w ct wf il).area = l * w := rfl
  have hpos : 0 < (estimate l w ct wf il).area := by
    rw [ha]; exact mul_pos hl hw
  exact ⟨hpos, ne_of_gt hpos, div_mul_cancel₀ _ (ne_of_gt hpos)⟩

/-- Witness for C10 at the default scenario inputs. -/
theorem C10_witness :
    0 < (estimate 17 70 "Plaster (12mm)" 5 true).area ∧
    (estimate 17 70 "Plaster (12mm)" 5 true).area ≠ 0 ∧
    cost_per_sqft (estimate 17 70 "Plaster (12mm)" 5 true) *
        (estimate 17 70 "Plaster (12mm)" 5 true).area =
      (estimate 17 70 "Plaster (12mm)" 5 true).total_cost :=
  C10_area_positive 17 70 5 "Plaster (12mm)" true (by norm_num) (by norm_num)
